import Mathlib

/-!
A shallow embedding of the CarEngineSim repository (src/Engine.py and
src/Gearbox.py) in Lean 4, together with theorems settling the natural
language specification's claims about it.

Modelling conventions:
* Python floats are modelled as exact rationals (ℚ); every numeric literal of
  the source (0.03, 25.4, 3.14159, 0.737562, …) is the exact rational the
  decimal denotes.
* Python `int(x)` applied to a float is truncation toward zero (`pyInt`).
* `datetime.datetime.now()` is an effect: the per-tick update takes the
  current time (in milliseconds) as an explicit parameter `now`, and
  `clutched_timestamp` stores such a time.  The comparison
  `now - ts > timedelta(milliseconds=crt)` becomes `now - ts > crt`.
* `Engine.current_gear_ratio` is `None` until the first push
  (`calculate_increase_rate`); calling `update_rpm` while it is `None` raises
  a `TypeError` in Python, modelled by `update_rpm` returning `none`.
* Methods that mutate `self` and return a value become functions
  `Engine → ℚ × Engine` (value, updated state); `update_rpm` (returns `None`
  in Python) becomes `ℚ → Engine → Option Engine`.
* Python's `str.split(sep)` for a one-character separator is `pySplit`
  (splits at every occurrence, keeping empty parts), and `int(str)` is
  `pyIntStr` (strip ASCII whitespace, optional single sign, then a nonempty
  ASCII digit string in which single underscores may separate digits).
* Python list indexing `xs[i]` (with negative-index wraparound, raising
  `IndexError` out of range) is `pyIndex`.
-/

set_option linter.unusedVariables false

namespace CarEngineSim

/-- Python `int(x)` on a float/rational: truncation toward zero. -/
def pyInt (q : ℚ) : ℤ := if 0 ≤ q then ⌊q⌋ else ⌈q⌉

/-- The `Engine` class of src/Engine.py: the static specification fields taken
by `__init__` plus the live simulation state it initialises. -/
structure Engine where
  name : String
  manufacturer : String
  description : String
  cylinders : ℤ
  displacement : ℤ
  cylinder_bore : ℚ
  piston_stroke : ℚ
  compression_ratio : ℚ
  max_rpm : ℚ
  max_horsepower : ℚ
  max_kw : ℚ
  max_torque_nm : ℚ
  RON : ℤ
  ECS : String
  peak_torque_rpm : ℚ
  peak_hp_rpm : ℚ
  clutch_response_time : ℚ
  current_hp : ℚ
  current_torque_nm : ℚ
  current_rpm : ℚ
  throttle : ℚ
  throttle_decay_rate : ℚ
  increase_rate : ℚ
  base_increase_rate : ℚ
  current_gear_ratio : Option ℚ
  clutched : Bool
  clutched_timestamp : Option ℚ

namespace Engine

/-- `Engine.__init__` (src/Engine.py lines 4–41): stores the 17 arguments
verbatim and initialises the simulation state (idle RPM 700, zero throttle,
base increase rate 0.03, unset gear ratio, clutch disengaged). -/
def init (name manufacturer description : String)
    (cylinders displacement : ℤ) (cylinder_bore piston_stroke compression_ratio : ℚ)
    (max_rpm max_horsepower max_kw max_torque_nm : ℚ) (ron : ℤ) (ecs : String)
    (peak_torque_rpm peak_hp_rpm clutch_response_time : ℚ) : Engine :=
  { name := name
    manufacturer := manufacturer
    description := description
    cylinders := cylinders
    displacement := displacement
    cylinder_bore := cylinder_bore
    piston_stroke := piston_stroke
    compression_ratio := compression_ratio
    max_rpm := max_rpm
    max_horsepower := max_horsepower
    max_kw := max_kw
    max_torque_nm := max_torque_nm
    RON := ron
    ECS := ecs
    peak_torque_rpm := peak_torque_rpm
    peak_hp_rpm := peak_hp_rpm
    clutch_response_time := clutch_response_time
    current_hp := 0
    current_torque_nm := 0
    current_rpm := 700
    throttle := 0
    throttle_decay_rate := 0.02
    increase_rate := 0
    base_increase_rate := 0.03
    current_gear_ratio := none
    clutched := false
    clutched_timestamp := none }

/-- `Engine.calculate_increase_rate` (src/Engine.py lines 43–56). -/
def calculate_increase_rate (e : Engine) (gear_ratio : ℚ) : Engine :=
  { e with current_gear_ratio := some gear_ratio
           increase_rate := e.base_increase_rate * gear_ratio / 2 }

/-- `Engine.calculate_current_torque` (src/Engine.py lines 135–160).
Returns the computed torque together with the updated state (the Python
method mutates `self.current_torque_nm` and returns it; for
`current_rpm == 0` it returns `0.0` without touching the state). -/
def calculate_current_torque (e : Engine) : ℚ × Engine :=
  if e.current_rpm = 0 then (0, e)
  else
    let t :=
      if e.current_rpm ≤ e.peak_torque_rpm then
        e.max_torque_nm * (e.current_rpm / e.peak_torque_rpm)
      else
        let rpm_range := e.max_rpm - e.peak_torque_rpm
        let rpm_post_peak := e.current_rpm - e.peak_torque_rpm
        let decrease_factor := 1 - (rpm_post_peak / rpm_range) ^ 2
        e.max_torque_nm * decrease_factor
    let min_torque := e.max_torque_nm * 0.3
    let t2 := max t min_torque
    (t2, { e with current_torque_nm := t2 })

/-- `Engine.calculate_current_hp` (src/Engine.py lines 113–133).  Returns the
computed horsepower together with the updated state (for `current_rpm == 0` it
returns `0.0` without touching the state). -/
def calculate_current_hp (e : Engine) : ℚ × Engine :=
  if e.current_rpm = 0 then (0, e)
  else
    let current_torque_ft_lb := e.current_torque_nm * 0.737562
    let hp := current_torque_ft_lb * e.current_rpm / 5252
    let hp2 := if hp > e.max_horsepower then e.max_horsepower else hp
    (hp2, { e with current_hp := hp2 })

/-- The clutch-handling prologue of `Engine.update_rpm`
(src/Engine.py lines 69–77): force throttle to 0, record the engagement
timestamp on the first engaged tick, and clear flag and timestamp once
`now - clutched_timestamp > clutch_response_time` milliseconds. -/
def clutchStep (now : ℚ) (e : Engine) : Engine :=
  if e.clutched then
    let e1 := { e with throttle := 0 }
    match e.clutched_timestamp with
    | none => { e1 with clutched_timestamp := some now }
    | some ts =>
        if now - ts > e.clutch_response_time then
          { e1 with clutched := false, clutched_timestamp := none }
        else e1
  else e

/-- The RPM advance/decay of `Engine.update_rpm`
(src/Engine.py lines 82–103), given the already-computed `target_rpm`. -/
def rpmPhase (target_rpm : ℤ) (e : Engine) : Engine :=
  if (target_rpm : ℚ) > e.current_rpm then
    if e.current_rpm < (target_rpm : ℚ) then
      let increase_rate := ((target_rpm : ℚ) - e.current_rpm) * e.increase_rate
      let decay_factor := 1 - (e.current_rpm / e.max_rpm) ^ 2
      let r1 := e.current_rpm + increase_rate * decay_factor
      let r2 := if r1 > (target_rpm : ℚ) then (target_rpm : ℚ) else r1
      { e with current_rpm := r2 }
    else e
  else
    if e.current_rpm > 700 then
      let decay_rate :=
        if e.clutched = false then
          (e.current_rpm - (target_rpm : ℚ)) * e.increase_rate / 10
        else
          (e.current_rpm - (target_rpm : ℚ)) * e.increase_rate
      let r1 := e.current_rpm - decay_rate
      let r2 := if r1 < 700 then (700 : ℚ) else r1
      { e with current_rpm := r2 }
    else e

/-- The final clamp of `Engine.update_rpm` (src/Engine.py lines 106–107):
RPM never exceeds the maximum. -/
def clampMax (e : Engine) : Engine :=
  if e.current_rpm > e.max_rpm then { e with current_rpm := e.max_rpm } else e

/-- `Engine.update_rpm` (src/Engine.py lines 58–111).  `now` is the current
time in milliseconds (`datetime.datetime.now()`).  Returns `none` when
`current_gear_ratio` is unset (Python raises `TypeError` at the
`target_rpm` multiplication). -/
def update_rpm (now : ℚ) (e : Engine) : Option Engine :=
  let e1 := clutchStep now e
  match e1.current_gear_ratio with
  | none => none
  | some gr =>
      let target_rpm := pyInt (e1.max_rpm * e1.throttle * gr)
      let e2 := rpmPhase target_rpm e1
      let e3 := clampMax e2
      let e4 := (calculate_current_torque e3).2
      let e5 := (calculate_current_hp e4).2
      some e5

/-- One simulation tick as a total function: `update_rpm`, staying put when it
raises (i.e. when `current_gear_ratio` is unset). -/
def tick (now : ℚ) (e : Engine) : Engine := (update_rpm now e).getD e

end Engine

/-! ## The Gearbox embedding (src/Gearbox.py) -/

/-- Python `str.split(sep)` for a one-character separator: splits at every
occurrence of `sep`, keeping empty parts (`"aRbR".split("R") = ["a","b",""]`,
`"".split("R") = [""]`). -/
def pySplit (sep : Char) : List Char → List (List Char)
  | [] => [[]]
  | c :: rest =>
      if c = sep then [] :: pySplit sep rest
      else
        match pySplit sep rest with
        | [] => [[c]]
        | p :: ps => (c :: p) :: ps

/-- ASCII whitespace stripped by Python's `int(str)`. -/
def isPySpace (c : Char) : Bool :=
  c = ' ' ∨ c = '\t' ∨ c = '\n' ∨ c = '\r' ∨ c = '\x0b' ∨ c = '\x0c'

/-- ASCII decimal digit. -/
def isPyDigit (c : Char) : Bool := '0' ≤ c ∧ c ≤ '9'

/-- Digit run of a Python integer literal after its first digit: digits in
which a single underscore may stand between two digits. -/
def pyDigits : List Char → ℕ → Option ℕ
  | [], acc => some acc
  | c :: rest, acc =>
      if c = '_' then
        match rest with
        | [] => none
        | d :: rest2 =>
            if isPyDigit d then pyDigits rest2 (acc * 10 + (d.toNat - 48)) else none
      else if isPyDigit c then pyDigits rest (acc * 10 + (c.toNat - 48))
      else none

/-- Python `int(str)`: strip surrounding whitespace, an optional single sign,
then a nonempty digit string (single underscores allowed between digits);
`none` models the `ValueError` raised otherwise. -/
def pyIntStr (s : List Char) : Option ℤ :=
  let t := (s.dropWhile isPySpace).reverse.dropWhile isPySpace |>.reverse
  match t with
  | [] => none
  | c :: rest =>
      if c = '-' then
        match rest with
        | [] => none
        | d :: rest2 =>
            if isPyDigit d then (pyDigits rest2 (d.toNat - 48)).map fun n => -(n : ℤ)
            else none
      else if c = '+' then
        match rest with
        | [] => none
        | d :: rest2 =>
            if isPyDigit d then (pyDigits rest2 (d.toNat - 48)).map fun n => (n : ℤ)
            else none
      else if isPyDigit c then (pyDigits rest (c.toNat - 48)).map fun n => (n : ℤ)
      else none

/-- Python list indexing `xs[i]`: negative indices wrap around once; out of
range raises `IndexError`, modelled by `none`. -/
def pyIndex (xs : List ℚ) (i : ℤ) : Option ℚ :=
  if 0 ≤ i then xs.get? i.toNat
  else if 0 ≤ (xs.length : ℤ) + i then xs.get? ((xs.length : ℤ) + i).toNat
  else none

/-- The error message of `Gearbox.get_wheel_radius` (src/Gearbox.py line 68). -/
def invalidTireMsg : String :=
  "Invalid tire size format. Ensure it is in 'Width/AspectRatioRDiameter' format."

/-- The `Gearbox` class of src/Gearbox.py. -/
structure Gearbox where
  gear_ratios : List ℚ
  current_gear : ℤ
  tire_radius_meters : ℚ
  final_drive_ratio : ℚ

namespace Gearbox

/-- `Gearbox.get_wheel_radius` (src/Gearbox.py lines 32–68): split the tire
descriptor on `'/'` and then on `'R'` into exactly two parts each, convert the
three parts with `int(...)`, and compute the radius purely from the rim
diameter; any unpacking or conversion failure is caught and re-raised as the
format `ValueError`.  The sidewall-height intermediates are computed but
unused, exactly as in the source. -/
def get_wheel_radius (tire_size : String) : Except String ℚ :=
  match pySplit '/' tire_size.data with
  | [width_str, aspect_ratio_and_diameter] =>
      match pySplit 'R' aspect_ratio_and_diameter with
      | [aspect_ratio_str, diameter_str] =>
          match pyIntStr width_str, pyIntStr aspect_ratio_str, pyIntStr diameter_str with
          | some width, some aspect_ratio, some diameter =>
              let sidewall_height_mm : ℚ := ((width : ℚ) * (aspect_ratio : ℚ)) / 100
              let sidewall_height_m : ℚ := sidewall_height_mm / 1000
              let wheel_radius_m : ℚ := ((diameter : ℚ) * 25.4 / 2) / 1000
              .ok wheel_radius_m
          | _, _, _ => .error invalidTireMsg
      | _ => .error invalidTireMsg
  | _ => .error invalidTireMsg

/-- `Gearbox.__init__` (src/Gearbox.py lines 2–13): stores the ratio list,
starts in gear 1, and derives the tire radius (propagating its `ValueError`). -/
def init (gear_ratios : List ℚ) (tire_size : String) (final_drive : ℚ) :
    Except String Gearbox :=
  (get_wheel_radius tire_size).map fun r =>
    { gear_ratios := gear_ratios
      current_gear := 1
      tire_radius_meters := r
      final_drive_ratio := final_drive }

/-- `Gearbox.shift_up` (src/Gearbox.py lines 15–20). -/
def shift_up (g : Gearbox) : Gearbox :=
  if g.current_gear < (g.gear_ratios.length : ℤ) then
    { g with current_gear := g.current_gear + 1 }
  else g

/-- `Gearbox.shift_down` (src/Gearbox.py lines 22–27). -/
def shift_down (g : Gearbox) : Gearbox :=
  if 1 < g.current_gear then { g with current_gear := g.current_gear - 1 } else g

/-- `Gearbox.get_current_ratio` (src/Gearbox.py lines 29–30):
`gear_ratios[current_gear - 1]` with Python indexing. -/
def get_current_ratio (g : Gearbox) : Option ℚ :=
  pyIndex g.gear_ratios (g.current_gear - 1)

/-- `Gearbox.get_speed` (src/Gearbox.py lines 70–82): speed in km/h from the
engine RPM, the tire radius, the current gear ratio and the final drive
ratio; the source's circle constant is the literal `3.14159`. -/
def get_speed (g : Gearbox) (engine_rpm : ℚ) : Option ℚ :=
  (pyIndex g.gear_ratios (g.current_gear - 1)).map fun gear_ratio =>
    (engine_rpm * g.tire_radius_meters * 2 * 3.14159 * 60) /
      (g.final_drive_ratio * gear_ratio * 1000)

end Gearbox

/-! ## Concrete states used by counterexamples and witnesses -/

/-- A small concrete engine spec (max_rpm 1000, max_hp 100, max_torque 200 N·m,
peak torque at 4/5 of max RPM), full throttle, gear ratio 1 pushed. -/
def engineA : Engine :=
  Engine.calculate_increase_rate
    { Engine.init "A" "M" "D" 4 2000 80 90 10 1000 100 80 200 95 "EFI" 800 950 1000
      with throttle := 1 } 1

/-- The Toyota engine of src/main.py (max_rpm 5500, peak torque 4800,
max torque 120 N·m), idle throttle, gear ratio 1 pushed. -/
def engineIdle : Engine :=
  Engine.calculate_increase_rate
    (Engine.init "M15A-FXE" "Toyota" "3 Cylinder Engine" 3 1490 80.5 97.6 14.0
      5500 91 67 120 91 "EFI" 4800 5500 1000) 1

/-- `engineA` at full throttle with ratio 0.9995 pushed and RPM already at the
(truncated) target 999 = int(1000 × 1 × 0.9995). -/
def engine999 : Engine :=
  { Engine.calculate_increase_rate
      { Engine.init "A" "M" "D" 4 2000 80 90 10 1000 100 80 200 95 "EFI" 800 950 1000
        with throttle := 1 } 0.9995
    with current_rpm := 999 }

/-- The engine state one tick after `engineA` (used as the concrete updated
state in witnesses). -/
def engineA1 : Engine := Engine.tick 0 engineA

/-- `engineA1` with the clutch flag raised (first engaged tick pending). -/
def engineA1c : Engine := { engineA1 with clutched := true }

/-- The state one tick (at time 5 ms) after `engineA1c`. -/
def engineA1cNext : Engine := Engine.tick 5 engineA1c

/-- `engineA` with the clutch flag raised (first engaged tick pending). -/
def engineAc : Engine := { engineA with clutched := true }

/-- The state one tick (at time 0) after `engineAc`. -/
def engineAcNext : Engine := Engine.tick 0 engineAc

/-- The gearbox of src/main.py: ratios of a 5-speed box, tire "195/55R16"
(radius 127/625 m = 0.2032 m), final drive 4.294. -/
def gearboxMain : Gearbox :=
  { gear_ratios := [3.545, 1.913, 1.310, 1.027, 0.850]
    current_gear := 1
    tire_radius_meters := 0.2032
    final_drive_ratio := 4.294 }

/-- The exact speed the code computes in the spec's §8 speed scenario:
engine_rpm 3000 in first gear of `gearboxMain`. -/
def speedScenario : ℚ := 3000 * 0.2032 * 2 * 3.14159 * 60 / (4.294 * 3.545 * 1000)

/-- Modelled from the spec's words for claim C6: the tire descriptor "splits
into three integer-bearing segments around `/` and `R`" — first the split on
`'/'` into exactly two parts, then the split of the second part on `'R'` into
exactly two parts, each of the three parts bearing a Python integer. -/
def tireSegments (s : String) : Option (ℤ × ℤ × ℤ) :=
  match pySplit '/' s.data with
  | [w, rest] =>
      match pySplit 'R' rest with
      | [a, d] =>
          match pyIntStr w, pyIntStr a, pyIntStr d with
          | some wi, some ai, some di => some (wi, ai, di)
          | _, _, _ => none
      | _ => none
  | _ => none

/-- A shift command fed to the gearbox by the driving loop. -/
inductive ShiftOp where
  | up : ShiftOp
  | down : ShiftOp

/-- Apply a sequence of shift commands. -/
def applyShifts (ops : List ShiftOp) (g : Gearbox) : Gearbox :=
  ops.foldl (fun g' op => match op with
    | ShiftOp.up => Gearbox.shift_up g'
    | ShiftOp.down => Gearbox.shift_down g') g

/-! ## Helper lemmas: field preservation through the phases of `update_rpm` -/

namespace Engine

@[simp] lemma torque2_rpm (e : Engine) :
    ((calculate_current_torque e).2).current_rpm = e.current_rpm := by
  unfold calculate_current_torque; repeat' split
  all_goals rfl

@[simp] lemma torque2_max_rpm (e : Engine) :
    ((calculate_current_torque e).2).max_rpm = e.max_rpm := by
  unfold calculate_current_torque; repeat' split
  all_goals rfl

@[simp] lemma torque2_increase_rate (e : Engine) :
    ((calculate_current_torque e).2).increase_rate = e.increase_rate := by
  unfold calculate_current_torque; repeat' split
  all_goals rfl

@[simp] lemma torque2_throttle (e : Engine) :
    ((calculate_current_torque e).2).throttle = e.throttle := by
  unfold calculate_current_torque; repeat' split
  all_goals rfl

@[simp] lemma torque2_clutched (e : Engine) :
    ((calculate_current_torque e).2).clutched = e.clutched := by
  unfold calculate_current_torque; repeat' split
  all_goals rfl

@[simp] lemma torque2_timestamp (e : Engine) :
    ((calculate_current_torque e).2).clutched_timestamp = e.clutched_timestamp := by
  unfold calculate_current_torque; repeat' split
  all_goals rfl

@[simp] lemma torque2_ratio (e : Engine) :
    ((calculate_current_torque e).2).current_gear_ratio = e.current_gear_ratio := by
  unfold calculate_current_torque; repeat' split
  all_goals rfl

@[simp] lemma hp2_rpm (e : Engine) :
    ((calculate_current_hp e).2).current_rpm = e.current_rpm := by
  unfold calculate_current_hp; repeat' split
  all_goals rfl

@[simp] lemma hp2_max_rpm (e : Engine) :
    ((calculate_current_hp e).2).max_rpm = e.max_rpm := by
  unfold calculate_current_hp; repeat' split
  all_goals rfl

@[simp] lemma hp2_increase_rate (e : Engine) :
    ((calculate_current_hp e).2).increase_rate = e.increase_rate := by
  unfold calculate_current_hp; repeat' split
  all_goals rfl

@[simp] lemma hp2_throttle (e : Engine) :
    ((calculate_current_hp e).2).throttle = e.throttle := by
  unfold calculate_current_hp; repeat' split
  all_goals rfl

@[simp] lemma hp2_clutched (e : Engine) :
    ((calculate_current_hp e).2).clutched = e.clutched := by
  unfold calculate_current_hp; repeat' split
  all_goals rfl

@[simp] lemma hp2_timestamp (e : Engine) :
    ((calculate_current_hp e).2).clutched_timestamp = e.clutched_timestamp := by
  unfold calculate_current_hp; repeat' split
  all_goals rfl

@[simp] lemma hp2_ratio (e : Engine) :
    ((calculate_current_hp e).2).current_gear_ratio = e.current_gear_ratio := by
  unfold calculate_current_hp; repeat' split
  all_goals rfl

@[simp] lemma clampMax_rpm (e : Engine) :
    (clampMax e).current_rpm = min e.current_rpm e.max_rpm := by
  unfold clampMax
  split
  · next h => exact (min_eq_right h.le).symm
  · next h => exact (min_eq_left (not_lt.mp h)).symm

@[simp] lemma clampMax_max_rpm (e : Engine) : (clampMax e).max_rpm = e.max_rpm := by
  unfold clampMax; repeat' split
  all_goals rfl

@[simp] lemma clampMax_increase_rate (e : Engine) :
    (clampMax e).increase_rate = e.increase_rate := by
  unfold clampMax; repeat' split
  all_goals rfl

@[simp] lemma clampMax_throttle (e : Engine) : (clampMax e).throttle = e.throttle := by
  unfold clampMax; repeat' split
  all_goals rfl

@[simp] lemma clampMax_clutched (e : Engine) : (clampMax e).clutched = e.clutched := by
  unfold clampMax; repeat' split
  all_goals rfl

@[simp] lemma clampMax_timestamp (e : Engine) :
    (clampMax e).clutched_timestamp = e.clutched_timestamp := by
  unfold clampMax; repeat' split
  all_goals rfl

@[simp] lemma clampMax_ratio (e : Engine) :
    (clampMax e).current_gear_ratio = e.current_gear_ratio := by
  unfold clampMax; repeat' split
  all_goals rfl

@[simp] lemma rpmPhase_max_rpm (T : ℤ) (e : Engine) :
    (rpmPhase T e).max_rpm = e.max_rpm := by
  unfold rpmPhase; repeat' split
  all_goals rfl

@[simp] lemma rpmPhase_increase_rate (T : ℤ) (e : Engine) :
    (rpmPhase T e).increase_rate = e.increase_rate := by
  unfold rpmPhase; repeat' split
  all_goals rfl

@[simp] lemma rpmPhase_throttle (T : ℤ) (e : Engine) :
    (rpmPhase T e).throttle = e.throttle := by
  unfold rpmPhase; repeat' split
  all_goals rfl

@[simp] lemma rpmPhase_clutched (T : ℤ) (e : Engine) :
    (rpmPhase T e).clutched = e.clutched := by
  unfold rpmPhase; repeat' split
  all_goals rfl

@[simp] lemma rpmPhase_timestamp (T : ℤ) (e : Engine) :
    (rpmPhase T e).clutched_timestamp = e.clutched_timestamp := by
  unfold rpmPhase; repeat' split
  all_goals rfl

@[simp] lemma rpmPhase_ratio (T : ℤ) (e : Engine) :
    (rpmPhase T e).current_gear_ratio = e.current_gear_ratio := by
  unfold rpmPhase; repeat' split
  all_goals rfl

@[simp] lemma clutchStep_rpm (now : ℚ) (e : Engine) :
    (clutchStep now e).current_rpm = e.current_rpm := by
  unfold clutchStep; repeat' split
  all_goals rfl

@[simp] lemma clutchStep_max_rpm (now : ℚ) (e : Engine) :
    (clutchStep now e).max_rpm = e.max_rpm := by
  unfold clutchStep; repeat' split
  all_goals rfl

@[simp] lemma clutchStep_increase_rate (now : ℚ) (e : Engine) :
    (clutchStep now e).increase_rate = e.increase_rate := by
  unfold clutchStep; repeat' split
  all_goals rfl

@[simp] lemma clutchStep_ratio (now : ℚ) (e : Engine) :
    (clutchStep now e).current_gear_ratio = e.current_gear_ratio := by
  unfold clutchStep; repeat' split
  all_goals rfl

@[simp] lemma clutchStep_crt (now : ℚ) (e : Engine) :
    (clutchStep now e).clutch_response_time = e.clutch_response_time := by
  unfold clutchStep; repeat' split
  all_goals rfl

lemma clutchStep_of_not_clutched (now : ℚ) (e : Engine) (h : e.clutched = false) :
    clutchStep now e = e := by
  unfold clutchStep; rw [h]; rfl

lemma clutchStep_of_ts_none (now : ℚ) (e : Engine) (h : e.clutched = true)
    (hts : e.clutched_timestamp = none) :
    clutchStep now e = { e with throttle := 0, clutched_timestamp := some now } := by
  unfold clutchStep; rw [h, hts]; rfl

lemma clutchStep_of_expired (now ts : ℚ) (e : Engine) (h : e.clutched = true)
    (hts : e.clutched_timestamp = some ts) (hgt : now - ts > e.clutch_response_time) :
    clutchStep now e = { e with throttle := 0, clutched := false, clutched_timestamp := none } := by
  unfold clutchStep; rw [h, hts]; simp only [if_true]; rw [if_pos hgt]

lemma clutchStep_of_dwell (now ts : ℚ) (e : Engine) (h : e.clutched = true)
    (hts : e.clutched_timestamp = some ts) (hle : ¬ now - ts > e.clutch_response_time) :
    clutchStep now e = { e with throttle := 0 } := by
  unfold clutchStep; rw [h, hts]; simp only [if_true]; rw [if_neg hle]

/-! ## Helper lemmas: the RPM value computed by one `update_rpm` call -/

lemma ite_gt_eq_min (a b : ℚ) : (if a > b then b else a) = min a b := by
  split
  · next h => exact (min_eq_right h.le).symm
  · next h => exact (min_eq_left (not_lt.mp h)).symm

lemma ite_lt_eq_max (a b : ℚ) : (if a < b then b else a) = max a b := by
  split
  · next h => exact (max_eq_right h.le).symm
  · next h => exact (max_eq_left (not_lt.mp h)).symm

/-- Unfolding `update_rpm` when the gear ratio is set. -/
lemma update_rpm_eq (now : ℚ) (e : Engine) (gr : ℚ) (h : e.current_gear_ratio = some gr) :
    update_rpm now e = some
      ((calculate_current_hp
        ((calculate_current_torque
          (clampMax (rpmPhase (pyInt ((clutchStep now e).max_rpm * (clutchStep now e).throttle * gr))
            (clutchStep now e)))).2)).2) := by
  unfold update_rpm
  simp only [clutchStep_ratio, h]

/-- The RPM after the torque/hp recomputation phases is the RPM after
`clampMax`, i.e. the `rpmPhase` result clamped at `max_rpm`. -/
lemma post_rpm_formula (T : ℤ) (e : Engine) :
    ((calculate_current_hp ((calculate_current_torque (clampMax (rpmPhase T e))).2)).2).current_rpm
      = min (rpmPhase T e).current_rpm e.max_rpm := by
  rw [hp2_rpm, torque2_rpm, clampMax_rpm, rpmPhase_max_rpm]

/-- The accelerating branch of the RPM phase (src/Engine.py lines 82–93). -/
lemma rpmPhase_rpm_accel (T : ℤ) (e : Engine) (h : (T : ℚ) > e.current_rpm) :
    (rpmPhase T e).current_rpm =
      min (e.current_rpm
          + ((T : ℚ) - e.current_rpm) * e.increase_rate * (1 - (e.current_rpm / e.max_rpm) ^ 2))
        (T : ℚ) := by
  unfold rpmPhase
  rw [if_pos h, if_pos (show e.current_rpm < (T : ℚ) from h)]
  simp only [ite_gt_eq_min]

/-- The decay branch of the RPM phase (src/Engine.py lines 94–103). -/
lemma rpmPhase_rpm_decay (T : ℤ) (e : Engine) (h : ¬ (T : ℚ) > e.current_rpm)
    (h7 : e.current_rpm > 700) :
    (rpmPhase T e).current_rpm =
      max (e.current_rpm -
          (if e.clutched = false then (e.current_rpm - (T : ℚ)) * e.increase_rate / 10
           else (e.current_rpm - (T : ℚ)) * e.increase_rate)) 700 := by
  unfold rpmPhase
  rw [if_neg h, if_pos h7]
  simp only [ite_lt_eq_max]

/-- The idle branch of the RPM phase: at or below the idle floor with no
acceleration demanded, the state is untouched. -/
lemma rpmPhase_of_idle (T : ℤ) (e : Engine) (h : ¬ (T : ℚ) > e.current_rpm)
    (h7 : ¬ e.current_rpm > 700) : rpmPhase T e = e := by
  unfold rpmPhase
  rw [if_neg h, if_neg h7]

/-! ## Pure arithmetic facts about the per-tick RPM values -/

lemma sq_frac_le_one (rpm M : ℚ) (h0 : 0 ≤ rpm) (hM : rpm ≤ M) (hM0 : 0 < M) :
    (rpm / M) ^ 2 ≤ 1 := by
  have hx : 0 ≤ rpm / M := div_nonneg h0 hM0.le
  have hx1 : rpm / M ≤ 1 := (div_le_one hM0).mpr hM
  nlinarith

lemma accel_value_ge (rpm T M ir : ℚ) (h7 : 700 ≤ rpm) (hM : rpm ≤ M)
    (hT : (T : ℚ) > rpm) (hir : 0 ≤ ir) :
    rpm ≤ min (min (rpm + (T - rpm) * ir * (1 - (rpm / M) ^ 2)) T) M := by
  have hM0 : 0 < M := by linarith
  have hdf : 0 ≤ 1 - (rpm / M) ^ 2 := by
    have := sq_frac_le_one rpm M (by linarith) hM hM0
    linarith
  have hdelta : 0 ≤ (T - rpm) * ir * (1 - (rpm / M) ^ 2) :=
    mul_nonneg (mul_nonneg (by linarith) hir) hdf
  exact le_min (le_min (by linarith) hT.le) hM

lemma accel_value_le_limit (rpm T M : ℚ) (h7 : 700 ≤ rpm) (hT : (T : ℚ) > rpm) (hMm : 700 ≤ M)
    (delta : ℚ) :
    min (min (rpm + delta) T) M ≤ max 700 (min M T) := by
  have h1 : min (min (rpm + delta) T) M ≤ T := le_trans (min_le_left _ _) (min_le_right _ _)
  have h2 : min (min (rpm + delta) T) M ≤ M := min_le_right _ _
  exact le_trans (le_min h2 h1) (le_max_right _ _)

lemma decay_value_bounds (rpm M d : ℚ) (h7 : 700 < rpm) (hM : rpm ≤ M) (hd : 0 ≤ d) :
    700 ≤ min (max (rpm - d) 700) M ∧ min (max (rpm - d) 700) M ≤ rpm := by
  constructor
  · exact le_min (le_max_right _ _) (by linarith)
  · exact le_trans (min_le_left _ _) (max_le (by linarith) h7.le)

lemma accel_progress (rpm T M ir ε : ℚ) (h7 : 700 ≤ rpm) (hM : rpm ≤ M)
    (hir : 0 < ir) (hε : 0 < ε)
    (hgap : rpm ≤ max 700 (min M T) - ε) :
    max 700 (min M T) - min (min (rpm + (T - rpm) * ir * (1 - (rpm / M) ^ 2)) T) M
      ≤ max 0 (max 700 (min M T) - rpm - ir * ε ^ 2 / M) := by
  have hLlb : rpm + ε ≤ max 700 (min M T) := by linarith
  have hLgt : 700 < max 700 (min M T) := by linarith
  have hL : max 700 (min M T) = min M T := by
    rcases le_or_lt (min M T) 700 with hc | hc
    · rw [max_eq_left hc] at hLgt; exact absurd hLgt (lt_irrefl _)
    · exact max_eq_right hc.le
  have hTrpm : rpm + ε ≤ T := le_trans hLlb (by rw [hL]; exact min_le_right M T)
  have hMrpm : rpm + ε ≤ M := le_trans hLlb (by rw [hL]; exact min_le_left M T)
  have hM0 : 0 < M := by linarith
  have hdf : ε / M ≤ 1 - (rpm / M) ^ 2 := by
    have hx : 0 ≤ rpm / M := div_nonneg (by linarith) hM0.le
    have hx1 : rpm / M ≤ 1 := (div_le_one hM0).mpr hM
    have h1 : (rpm / M) ^ 2 ≤ rpm / M := by nlinarith
    have h2 : ε / M ≤ (M - rpm) / M := by gcongr; linarith
    have h3 : (M - rpm) / M = 1 - rpm / M := by field_simp
    rw [h3] at h2
    linarith
  have hdelta : ir * ε ^ 2 / M ≤ (T - rpm) * ir * (1 - (rpm / M) ^ 2) := by
    have e1 : ir * ε ^ 2 / M = ε * ir * (ε / M) := by ring
    rw [e1]
    have hεM : 0 ≤ ε / M := div_nonneg hε.le hM0.le
    have := mul_le_mul (mul_le_mul (by linarith : ε ≤ T - rpm) le_rfl hir.le (by linarith))
      hdf hεM (mul_nonneg (by linarith) hir.le)
    exact this
  set L := max 700 (min M T) with hLdef
  set delta := (T - rpm) * ir * (1 - (rpm / M) ^ 2) with hdelta_def
  rcases le_or_lt (rpm + delta) T with hcT | hcT
  · rcases le_or_lt (rpm + delta) M with hcM | hcM
    · rw [min_eq_left hcT, min_eq_left hcM]
      exact le_trans (by linarith) (le_max_right 0 (L - rpm - ir * ε ^ 2 / M))
    · rw [min_eq_left hcT, min_eq_right hcM.le]
      have : L ≤ M := by rw [hL]; exact min_le_left M T
      exact le_trans (by linarith) (le_max_left 0 (L - rpm - ir * ε ^ 2 / M))
  · rw [min_eq_right hcT.le]
    have hLe : L ≤ min T M := by rw [hL, min_comm]
    have hnp : L - min T M ≤ 0 := by linarith
    exact le_trans hnp (le_max_left 0 _)

/-! ## Step lemmas on engine states -/

/-- One `update_rpm` call keeps `current_rpm` in `[700, max_rpm]` and leaves
`max_rpm` unchanged, for any state (clutched or not) whose gear ratio is set,
whose increase rate is nonnegative and whose RPM starts in the interval. -/
lemma step_interval (now : ℚ) (e e' : Engine) (gr : ℚ)
    (hr : e.current_gear_ratio = some gr) (hir : 0 ≤ e.increase_rate)
    (h7 : 700 ≤ e.current_rpm) (hM : e.current_rpm ≤ e.max_rpm)
    (hupd : update_rpm now e = some e') :
    700 ≤ e'.current_rpm ∧ e'.current_rpm ≤ e.max_rpm ∧ e'.max_rpm = e.max_rpm := by
  rw [update_rpm_eq now e gr hr] at hupd
  have he' := (Option.some.inj hupd).symm
  subst he'
  have hcrpm : (clutchStep now e).current_rpm = e.current_rpm := clutchStep_rpm now e
  have hcmax : (clutchStep now e).max_rpm = e.max_rpm := clutchStep_max_rpm now e
  have hcir : (clutchStep now e).increase_rate = e.increase_rate :=
    clutchStep_increase_rate now e
  refine ⟨?_, ?_, by simp⟩
  · rw [post_rpm_formula]
    generalize pyInt ((clutchStep now e).max_rpm * (clutchStep now e).throttle * gr) = T
    rw [hcmax]
    rcases lt_or_le (clutchStep now e).current_rpm ((T : ℤ) : ℚ) with hacc | hdec
    · rw [rpmPhase_rpm_accel _ _ hacc, hcrpm, hcir, hcmax]
      rw [hcrpm] at hacc
      exact le_trans h7
        (accel_value_ge e.current_rpm ((T : ℤ) : ℚ) e.max_rpm e.increase_rate h7 hM hacc hir)
    · rcases lt_or_le (700 : ℚ) (clutchStep now e).current_rpm with h7' | h7'
      · rw [rpmPhase_rpm_decay _ _ (not_lt.mpr hdec) h7', hcrpm, hcir]
        rw [hcrpm] at hdec h7'
        refine (decay_value_bounds e.current_rpm e.max_rpm _ h7' hM ?_).1
        have h0 : 0 ≤ (e.current_rpm - ((T : ℤ) : ℚ)) * e.increase_rate :=
          mul_nonneg (by linarith) hir
        split
        · linarith
        · exact h0
      · rw [rpmPhase_of_idle _ _ (not_lt.mpr hdec) (not_lt.mpr h7'), hcrpm]
        exact le_min h7 (le_trans h7 hM)
  · rw [post_rpm_formula, hcmax]
    exact min_le_right _ _

/-- One tick of the throttle-hold run of claim C1: from an unclutched state
with the gear ratio set, a nonnegative increase rate and RPM within
`[700, max_rpm]` and below the run's limit
`L = max 700 (min max_rpm target)`, the tick preserves all the run
parameters, never decreases the RPM, and keeps it within `[700, max_rpm]`
and below `L`. -/
lemma run_step (now : ℚ) (e : Engine) (gr : ℚ)
    (hcl : e.clutched = false) (hr : e.current_gear_ratio = some gr)
    (hir : 0 ≤ e.increase_rate) (h7 : 700 ≤ e.current_rpm) (hM : e.current_rpm ≤ e.max_rpm)
    (hL : e.current_rpm ≤ max 700 (min e.max_rpm ((pyInt (e.max_rpm * e.throttle * gr) : ℤ) : ℚ))) :
    (tick now e).clutched = false ∧ (tick now e).current_gear_ratio = some gr ∧
    (tick now e).throttle = e.throttle ∧ (tick now e).increase_rate = e.increase_rate ∧
    (tick now e).max_rpm = e.max_rpm ∧
    e.current_rpm ≤ (tick now e).current_rpm ∧ 700 ≤ (tick now e).current_rpm ∧
    (tick now e).current_rpm ≤ e.max_rpm ∧
    (tick now e).current_rpm ≤
      max 700 (min e.max_rpm ((pyInt (e.max_rpm * e.throttle * gr) : ℤ) : ℚ)) := by
  have htick : tick now e =
      (calculate_current_hp ((calculate_current_torque
        (clampMax (rpmPhase (pyInt (e.max_rpm * e.throttle * gr)) e))).2)).2 := by
    unfold tick
    rw [update_rpm_eq now e gr hr, clutchStep_of_not_clutched now e hcl, Option.getD_some]
  have hrpm_eq : (tick now e).current_rpm =
      min (rpmPhase (pyInt (e.max_rpm * e.throttle * gr)) e).current_rpm e.max_rpm := by
    rw [htick, post_rpm_formula]
  have hM700 : (700 : ℚ) ≤ e.max_rpm := le_trans h7 hM
  have key : e.current_rpm ≤ (tick now e).current_rpm ∧ 700 ≤ (tick now e).current_rpm ∧
      (tick now e).current_rpm ≤ e.max_rpm ∧
      (tick now e).current_rpm ≤
        max 700 (min e.max_rpm ((pyInt (e.max_rpm * e.throttle * gr) : ℤ) : ℚ)) := by
    rw [hrpm_eq]
    set T := pyInt (e.max_rpm * e.throttle * gr) with hTdef
    rcases lt_or_le e.current_rpm ((T : ℤ) : ℚ) with hacc | hdec
    · rw [rpmPhase_rpm_accel _ _ hacc]
      have k1 := accel_value_ge e.current_rpm ((T : ℤ) : ℚ) e.max_rpm e.increase_rate
        h7 hM hacc hir
      have k2 := accel_value_le_limit e.current_rpm ((T : ℤ) : ℚ) e.max_rpm h7 hacc hM700
        ((((T : ℤ) : ℚ) - e.current_rpm) * e.increase_rate
          * (1 - (e.current_rpm / e.max_rpm) ^ 2))
      exact ⟨k1, le_trans h7 k1, min_le_right _ _, k2⟩
    · rcases lt_or_le (700 : ℚ) e.current_rpm with h7' | h7'
      · have hLgt : (700 : ℚ) < max 700 (min e.max_rpm ((T : ℤ) : ℚ)) := lt_of_lt_of_le h7' hL
        have hmin : (700 : ℚ) < min e.max_rpm ((T : ℤ) : ℚ) := by
          rcases le_or_lt (min e.max_rpm ((T : ℤ) : ℚ)) 700 with hc | hc
          · rw [max_eq_left hc] at hLgt; exact absurd hLgt (lt_irrefl _)
          · exact hc
        have hrT : e.current_rpm = ((T : ℤ) : ℚ) := by
          have h1 : e.current_rpm ≤ ((T : ℤ) : ℚ) := by
            have h2 := hL
            rw [max_eq_right hmin.le] at h2
            exact le_trans h2 (min_le_right _ _)
          exact le_antisymm h1 hdec
        rw [rpmPhase_rpm_decay _ _ (not_lt.mpr hdec) h7', if_pos hcl]
        have hval : e.current_rpm - (e.current_rpm - ((T : ℤ) : ℚ)) * e.increase_rate / 10
            = e.current_rpm := by rw [← hrT]; ring
        rw [hval, max_eq_left h7'.le, min_eq_left hM]
        exact ⟨le_refl _, h7, hM, hL⟩
      · rw [rpmPhase_of_idle _ _ (not_lt.mpr hdec) (not_lt.mpr h7'), min_eq_left hM]
        exact ⟨le_refl _, h7, hM, hL⟩
  refine ⟨?_, ?_, ?_, ?_, ?_, key.1, key.2.1, key.2.2.1, key.2.2.2⟩
  · rw [htick]; simp [hcl]
  · rw [htick]; simp [hr]
  · rw [htick]; simp
  · rw [htick]; simp
  · rw [htick]; simp

/-- On an unclutched state with the ratio set, an accelerating tick computes
exactly the source's formula: the advance
`(target − rpm) × increase_rate × (1 − (rpm/max_rpm)²)`, clamped at the
target and then at `max_rpm`. -/
lemma run_step_accel_formula (now : ℚ) (e : Engine) (gr : ℚ)
    (hcl : e.clutched = false) (hr : e.current_gear_ratio = some gr)
    (hacc : e.current_rpm < ((pyInt (e.max_rpm * e.throttle * gr) : ℤ) : ℚ)) :
    (tick now e).current_rpm =
      min (min (e.current_rpm
          + (((pyInt (e.max_rpm * e.throttle * gr) : ℤ) : ℚ) - e.current_rpm)
            * e.increase_rate * (1 - (e.current_rpm / e.max_rpm) ^ 2))
        ((pyInt (e.max_rpm * e.throttle * gr) : ℤ) : ℚ)) e.max_rpm := by
  have htick : tick now e =
      (calculate_current_hp ((calculate_current_torque
        (clampMax (rpmPhase (pyInt (e.max_rpm * e.throttle * gr)) e))).2)).2 := by
    unfold tick
    rw [update_rpm_eq now e gr hr, clutchStep_of_not_clutched now e hcl, Option.getD_some]
  rw [htick, post_rpm_formula, rpmPhase_rpm_accel _ _ hacc]

/-- Progress of the throttle-hold run: while the RPM is at least `ε` below the
run's limit `L`, one tick closes the gap to `L` by at least
`increase_rate × ε² / max_rpm`. -/
lemma run_step_progress (now : ℚ) (e : Engine) (gr ε : ℚ)
    (hcl : e.clutched = false) (hr : e.current_gear_ratio = some gr)
    (hir : 0 < e.increase_rate) (h7 : 700 ≤ e.current_rpm) (hM : e.current_rpm ≤ e.max_rpm)
    (hε : 0 < ε)
    (hgap : e.current_rpm ≤
      max 700 (min e.max_rpm ((pyInt (e.max_rpm * e.throttle * gr) : ℤ) : ℚ)) - ε) :
    max 700 (min e.max_rpm ((pyInt (e.max_rpm * e.throttle * gr) : ℤ) : ℚ))
        - (tick now e).current_rpm
      ≤ max 0 (max 700 (min e.max_rpm ((pyInt (e.max_rpm * e.throttle * gr) : ℤ) : ℚ))
          - e.current_rpm - e.increase_rate * ε ^ 2 / e.max_rpm) := by
  have hacc : e.current_rpm < ((pyInt (e.max_rpm * e.throttle * gr) : ℤ) : ℚ) := by
    have hLlb : e.current_rpm + ε ≤
        max 700 (min e.max_rpm ((pyInt (e.max_rpm * e.throttle * gr) : ℤ) : ℚ)) := by linarith
    have hLgt : (700 : ℚ) <
        max 700 (min e.max_rpm ((pyInt (e.max_rpm * e.throttle * gr) : ℤ) : ℚ)) := by linarith
    have hL : max 700 (min e.max_rpm ((pyInt (e.max_rpm * e.throttle * gr) : ℤ) : ℚ))
        = min e.max_rpm ((pyInt (e.max_rpm * e.throttle * gr) : ℤ) : ℚ) := by
      rcases le_or_lt (min e.max_rpm ((pyInt (e.max_rpm * e.throttle * gr) : ℤ) : ℚ)) 700
        with hc | hc
      · rw [max_eq_left hc] at hLgt; exact absurd hLgt (lt_irrefl _)
      · exact max_eq_right hc.le
    rw [hL] at hLlb
    have := le_trans hLlb (min_le_right _ _)
    linarith
  rw [run_step_accel_formula now e gr hcl hr hacc]
  exact accel_progress e.current_rpm ((pyInt (e.max_rpm * e.throttle * gr) : ℤ) : ℚ)
    e.max_rpm e.increase_rate ε h7 hM hir hε hgap

/-- The full invariant of the throttle-hold run of claim C1, propagated along
the iteration of `tick`. -/
lemma run_invariant (e0 : Engine) (gr : ℚ)
    (hgr : 0 < gr) (hratio : e0.current_gear_ratio = some gr)
    (hir : e0.increase_rate = e0.base_increase_rate * gr / 2)
    (hbase : e0.base_increase_rate = 0.03)
    (hcl : e0.clutched = false) (hidle : e0.current_rpm = 700) (hM : 700 ≤ e0.max_rpm) :
    ∀ n : ℕ,
      ((tick 0)^[n] e0).clutched = false ∧
      ((tick 0)^[n] e0).current_gear_ratio = some gr ∧
      ((tick 0)^[n] e0).throttle = e0.throttle ∧
      ((tick 0)^[n] e0).increase_rate = e0.increase_rate ∧
      ((tick 0)^[n] e0).max_rpm = e0.max_rpm ∧
      700 ≤ ((tick 0)^[n] e0).current_rpm ∧
      ((tick 0)^[n] e0).current_rpm ≤ e0.max_rpm ∧
      ((tick 0)^[n] e0).current_rpm ≤
        max 700 (min e0.max_rpm ((pyInt (e0.max_rpm * e0.throttle * gr) : ℤ) : ℚ)) := by
  have hirpos : 0 < e0.increase_rate := by
    rw [hir, hbase]; linarith
  intro n
  induction n with
  | zero =>
      refine ⟨hcl, hratio, rfl, rfl, rfl, ?_, ?_, ?_⟩
      · rw [Function.iterate_zero, id_eq, hidle]
      · rw [Function.iterate_zero, id_eq, hidle]; exact hM
      · rw [Function.iterate_zero, id_eq, hidle]; exact le_max_left _ _
  | succ n ih =>
      obtain ⟨i1, i2, i3, i4, i5, i6, i7, i8⟩ := ih
      obtain ⟨c1, c2, c3, c4, c5, c6, c7, c8, c9⟩ :=
        run_step 0 ((tick 0)^[n] e0) gr i1 i2 (by rw [i4]; exact hirpos.le) i6
          (by rw [i5]; exact i7) (by rw [i5, i3]; exact i8)
      rw [Function.iterate_succ_apply']
      rw [i5, i3] at c9
      rw [i5] at c8
      exact ⟨c1, c2, by rw [c3, i3], by rw [c4, i4], by rw [c5, i5], c7, c8, c9⟩

end Engine

lemma pyInt_zero : pyInt 0 = 0 := by
  unfold pyInt
  rw [if_pos le_rfl]
  exact Int.floor_zero

/-! ## The claims -/

/-- C1, counterexample.  The claim says the `current_rpm` sequence obtained by
repeatedly calling `update_rpm` from idle "converges toward
`min(max_rpm, max_rpm × throttle × gear_ratio)`" for *every* throttle in
[0,1] and gear ratio > 0.  Two concrete refutations:
(1) `engineIdle` (throttle 0, ratio 1, max_rpm 5500): the claimed limit is
`min(5500, 0) = 0`, but one call leaves `current_rpm` at `700` and produces a
fixed point of `update_rpm`, so the sequence is eventually constant at
`700 ≠ 0` — the code never decays below the idle floor 700.
(2) `engine999` (throttle 1, ratio 0.9995, max_rpm 1000, `current_rpm` at the
truncated target `int(999.5) = 999`): the claimed limit is
`min(1000, 999.5) = 999.5`, but the state is again a fixed point of
`update_rpm` with `current_rpm = 999 ≠ 999.5` — the code's target is the
`int()`-truncation of `max_rpm × throttle × ratio`. -/
theorem claim_C1_counterexample :
    ((Engine.update_rpm 0 engineIdle).map Engine.current_rpm = some 700
      ∧ (Engine.update_rpm 0 engineIdle).bind (Engine.update_rpm 0)
          = Engine.update_rpm 0 engineIdle
      ∧ min engineIdle.max_rpm (engineIdle.max_rpm * engineIdle.throttle * 1) = 0
      ∧ (700 : ℚ) ≠ 0)
    ∧ ((Engine.update_rpm 0 engine999).map Engine.current_rpm = some 999
      ∧ (Engine.update_rpm 0 engine999).bind (Engine.update_rpm 0)
          = Engine.update_rpm 0 engine999
      ∧ min engine999.max_rpm (engine999.max_rpm * engine999.throttle * 0.9995) = 1999 / 2
      ∧ (999 : ℚ) ≠ 1999 / 2) := by
  refine ⟨⟨?_, ?_, ?_, ?_⟩, ⟨?_, ?_, ?_, ?_⟩⟩
  · norm_num [engineIdle, Engine.init, Engine.calculate_increase_rate, Engine.update_rpm,
      Engine.clutchStep, Engine.rpmPhase, Engine.clampMax, Engine.calculate_current_torque,
      Engine.calculate_current_hp, pyInt, max_def, min_def]
  · norm_num [engineIdle, Engine.init, Engine.calculate_increase_rate, Engine.update_rpm,
      Engine.clutchStep, Engine.rpmPhase, Engine.clampMax, Engine.calculate_current_torque,
      Engine.calculate_current_hp, pyInt, max_def, min_def]
  · norm_num [engineIdle, Engine.init, Engine.calculate_increase_rate, min_def]
  · norm_num
  · norm_num [engine999, Engine.init, Engine.calculate_increase_rate, Engine.update_rpm,
      Engine.clutchStep, Engine.rpmPhase, Engine.clampMax, Engine.calculate_current_torque,
      Engine.calculate_current_hp, pyInt, max_def, min_def, Int.floor_eq_iff]
  · norm_num [engine999, Engine.init, Engine.calculate_increase_rate, Engine.update_rpm,
      Engine.clutchStep, Engine.rpmPhase, Engine.clampMax, Engine.calculate_current_torque,
      Engine.calculate_current_hp, pyInt, max_def, min_def, Int.floor_eq_iff]
  · norm_num [engine999, Engine.init, Engine.calculate_increase_rate, min_def]
  · norm_num

/-- C1 (amended).  For every throttle in [0,1] and gear ratio `gr > 0` pushed
via `calculate_increase_rate` (so `increase_rate = base_increase_rate × gr / 2`
with the constructed base 0.03), on an engine with `max_rpm ≥ 700`, repeatedly
calling `update_rpm` from the idle state (`current_rpm = 700`, clutch
disengaged) yields a `current_rpm` sequence that is monotonically
non-decreasing, never exceeds `max_rpm`, stays at or below
`L = max(700, min(max_rpm, int(max_rpm × throttle × gr)))`, and converges
toward `L` (for every `ε > 0` the gap `L − current_rpm` is eventually ≤ `ε`);
each accelerating step advances `current_rpm` by
`(target_rpm − current_rpm) × increase_rate × (1 − (current_rpm/max_rpm)²)`,
clamped so it never overshoots `target_rpm` (and then clamped at `max_rpm`). -/
theorem claim_C1 (e0 : Engine) (gr : ℚ)
    (hthr0 : 0 ≤ e0.throttle) (hthr1 : e0.throttle ≤ 1) (hgr : 0 < gr)
    (hratio : e0.current_gear_ratio = some gr)
    (hir : e0.increase_rate = e0.base_increase_rate * gr / 2)
    (hbase : e0.base_increase_rate = 0.03)
    (hcl : e0.clutched = false) (hidle : e0.current_rpm = 700) (hM : 700 ≤ e0.max_rpm) :
    (∀ n : ℕ, ((Engine.tick 0)^[n] e0).current_rpm ≤ ((Engine.tick 0)^[n + 1] e0).current_rpm)
    ∧ (∀ n : ℕ, ((Engine.tick 0)^[n] e0).current_rpm ≤ e0.max_rpm)
    ∧ (∀ n : ℕ, ((Engine.tick 0)^[n] e0).current_rpm ≤
        max 700 (min e0.max_rpm ((pyInt (e0.max_rpm * e0.throttle * gr) : ℤ) : ℚ)))
    ∧ (∀ ε : ℚ, 0 < ε → ∃ N : ℕ, ∀ n : ℕ, N ≤ n →
        max 700 (min e0.max_rpm ((pyInt (e0.max_rpm * e0.throttle * gr) : ℤ) : ℚ))
          - ((Engine.tick 0)^[n] e0).current_rpm ≤ ε)
    ∧ (∀ n : ℕ, ((Engine.tick 0)^[n] e0).current_rpm
          < ((pyInt (e0.max_rpm * e0.throttle * gr) : ℤ) : ℚ) →
        ((Engine.tick 0)^[n + 1] e0).current_rpm =
          min (min (((Engine.tick 0)^[n] e0).current_rpm
              + (((pyInt (e0.max_rpm * e0.throttle * gr) : ℤ) : ℚ)
                  - ((Engine.tick 0)^[n] e0).current_rpm)
                * e0.increase_rate
                * (1 - (((Engine.tick 0)^[n] e0).current_rpm / e0.max_rpm) ^ 2))
            ((pyInt (e0.max_rpm * e0.throttle * gr) : ℤ) : ℚ)) e0.max_rpm) := by
  have hirpos : 0 < e0.increase_rate := by rw [hir, hbase]; linarith
  have inv := Engine.run_invariant e0 gr hgr hratio hir hbase hcl hidle hM
  have hmono : ∀ n : ℕ,
      ((Engine.tick 0)^[n] e0).current_rpm ≤ ((Engine.tick 0)^[n + 1] e0).current_rpm := by
    intro n
    obtain ⟨i1, i2, i3, i4, i5, i6, i7, i8⟩ := inv n
    obtain ⟨c1, c2, c3, c4, c5, c6, c7, c8, c9⟩ :=
      Engine.run_step 0 ((Engine.tick 0)^[n] e0) gr i1 i2 (by rw [i4]; exact hirpos.le) i6
        (by rw [i5]; exact i7) (by rw [i5, i3]; exact i8)
    rw [Function.iterate_succ_apply']
    exact c6
  refine ⟨hmono, fun n => (inv n).2.2.2.2.2.2.1, fun n => (inv n).2.2.2.2.2.2.2, ?_, ?_⟩
  · intro ε hε
    have hM0 : (0 : ℚ) < e0.max_rpm := by linarith
    have hδ : 0 < e0.increase_rate * ε ^ 2 / e0.max_rpm :=
      div_pos (mul_pos hirpos (pow_pos hε 2)) hM0
    obtain ⟨N, hN⟩ := exists_nat_ge
      ((max 700 (min e0.max_rpm ((pyInt (e0.max_rpm * e0.throttle * gr) : ℤ) : ℚ)) - 700)
        / (e0.increase_rate * ε ^ 2 / e0.max_rpm))
    refine ⟨N, ?_⟩
    have hanti : ∀ m : ℕ,
        max 700 (min e0.max_rpm ((pyInt (e0.max_rpm * e0.throttle * gr) : ℤ) : ℚ))
            - ((Engine.tick 0)^[m + 1] e0).current_rpm
          ≤ max 700 (min e0.max_rpm ((pyInt (e0.max_rpm * e0.throttle * gr) : ℤ) : ℚ))
            - ((Engine.tick 0)^[m] e0).current_rpm := by
      intro m; have := hmono m; linarith
    have hprog : ∀ m : ℕ,
        max 700 (min e0.max_rpm ((pyInt (e0.max_rpm * e0.throttle * gr) : ℤ) : ℚ))
            - ((Engine.tick 0)^[m] e0).current_rpm ≤ ε
        ∨ max 700 (min e0.max_rpm ((pyInt (e0.max_rpm * e0.throttle * gr) : ℤ) : ℚ))
            - ((Engine.tick 0)^[m] e0).current_rpm
          ≤ (max 700 (min e0.max_rpm ((pyInt (e0.max_rpm * e0.throttle * gr) : ℤ) : ℚ)) - 700)
            - (m : ℚ) * (e0.increase_rate * ε ^ 2 / e0.max_rpm) := by
      intro m
      induction m with
      | zero =>
          right
          rw [Function.iterate_zero, id_eq, hidle]
          push_cast
          linarith
      | succ m ih =>
          rcases ih with h | h
          · left; exact le_trans (hanti m) h
          · rcases le_or_lt
              (max 700 (min e0.max_rpm ((pyInt (e0.max_rpm * e0.throttle * gr) : ℤ) : ℚ))
                - ((Engine.tick 0)^[m] e0).current_rpm) ε with hle | hgt
            · left; exact le_trans (hanti m) hle
            · obtain ⟨i1, i2, i3, i4, i5, i6, i7, i8⟩ := inv m
              have hp := Engine.run_step_progress 0 ((Engine.tick 0)^[m] e0) gr ε i1 i2
                (by rw [i4]; exact hirpos) i6 (by rw [i5]; exact i7) hε
                (by rw [i5, i3]; linarith)
              rw [i5, i3, i4] at hp
              rw [Function.iterate_succ_apply']
              rcases le_total
                (max 700 (min e0.max_rpm ((pyInt (e0.max_rpm * e0.throttle * gr) : ℤ) : ℚ))
                  - ((Engine.tick 0)^[m] e0).current_rpm
                  - e0.increase_rate * ε ^ 2 / e0.max_rpm) 0 with hcase | hcase
              · left
                rw [max_eq_left hcase] at hp
                linarith
              · right
                rw [max_eq_right hcase] at hp
                push_cast
                linarith
    intro n hn
    rcases hprog n with h | h
    · exact h
    · have h1 : (max 700 (min e0.max_rpm ((pyInt (e0.max_rpm * e0.throttle * gr) : ℤ) : ℚ))
            - 700)
          ≤ (N : ℚ) * (e0.increase_rate * ε ^ 2 / e0.max_rpm) := (div_le_iff₀ hδ).mp hN
      have h2 : ((N : ℚ)) ≤ (n : ℚ) := Nat.cast_le.mpr hn
      have h3 : (N : ℚ) * (e0.increase_rate * ε ^ 2 / e0.max_rpm)
          ≤ (n : ℚ) * (e0.increase_rate * ε ^ 2 / e0.max_rpm) :=
        mul_le_mul_of_nonneg_right h2 hδ.le
      linarith
  · intro n hlt
    obtain ⟨i1, i2, i3, i4, i5, i6, i7, i8⟩ := inv n
    have hf := Engine.run_step_accel_formula 0 ((Engine.tick 0)^[n] e0) gr i1 i2
      (by rw [i5, i3]; exact hlt)
    rw [i5, i3, i4] at hf
    rw [Function.iterate_succ_apply']
    exact hf

/-- C1, witness: the amended claim instantiated at the concrete `engineA`
(max_rpm 1000, full throttle, gear ratio 1 pushed). -/
theorem claim_C1_witness :
    (∀ n : ℕ,
      ((Engine.tick 0)^[n] engineA).current_rpm ≤ ((Engine.tick 0)^[n + 1] engineA).current_rpm)
    ∧ (∀ n : ℕ, ((Engine.tick 0)^[n] engineA).current_rpm ≤ engineA.max_rpm)
    ∧ (∀ n : ℕ, ((Engine.tick 0)^[n] engineA).current_rpm ≤
        max 700 (min engineA.max_rpm
          ((pyInt (engineA.max_rpm * engineA.throttle * 1) : ℤ) : ℚ)))
    ∧ (∀ ε : ℚ, 0 < ε → ∃ N : ℕ, ∀ n : ℕ, N ≤ n →
        max 700 (min engineA.max_rpm
          ((pyInt (engineA.max_rpm * engineA.throttle * 1) : ℤ) : ℚ))
          - ((Engine.tick 0)^[n] engineA).current_rpm ≤ ε)
    ∧ (∀ n : ℕ, ((Engine.tick 0)^[n] engineA).current_rpm
          < ((pyInt (engineA.max_rpm * engineA.throttle * 1) : ℤ) : ℚ) →
        ((Engine.tick 0)^[n + 1] engineA).current_rpm =
          min (min (((Engine.tick 0)^[n] engineA).current_rpm
              + (((pyInt (engineA.max_rpm * engineA.throttle * 1) : ℤ) : ℚ)
                  - ((Engine.tick 0)^[n] engineA).current_rpm)
                * engineA.increase_rate
                * (1 - (((Engine.tick 0)^[n] engineA).current_rpm / engineA.max_rpm) ^ 2))
            ((pyInt (engineA.max_rpm * engineA.throttle * 1) : ℤ) : ℚ)) engineA.max_rpm) :=
  claim_C1 engineA 1 (by norm_num [engineA, Engine.init, Engine.calculate_increase_rate])
    (by norm_num [engineA, Engine.init, Engine.calculate_increase_rate]) (by norm_num)
    rfl rfl rfl rfl rfl
    (by norm_num [engineA, Engine.init, Engine.calculate_increase_rate])

/-- C2, counterexample.  The claim says `current_rpm` remains an int across
`update_rpm` calls.  On `engineA` (max_rpm 1000, throttle 1, ratio 1 pushed,
idle 700) one `update_rpm` call sets `current_rpm` to
`700 + (1000 − 700) × 0.015 × (1 − 0.7²) = 702.295 = 140459/200`, which is
not an integer (its floor differs from it): Python stores a float here, the
`int` annotation of the field notwithstanding. -/
theorem claim_C2_counterexample :
    (Engine.update_rpm 0 engineA).map Engine.current_rpm = some (140459 / 200)
    ∧ ((⌊(140459 / 200 : ℚ)⌋ : ℤ) : ℚ) ≠ (140459 / 200 : ℚ) := by
  constructor
  · norm_num [engineA, Engine.init, Engine.calculate_increase_rate, Engine.update_rpm,
      Engine.clutchStep, Engine.rpmPhase, Engine.clampMax, Engine.calculate_current_torque,
      Engine.calculate_current_hp, pyInt, max_def, min_def, Int.floor_eq_iff]
  · have hf : ⌊(140459 / 200 : ℚ)⌋ = 702 := by
      rw [Int.floor_eq_iff]
      norm_num
    rw [hf]
    norm_num

/-- C2 (amended).  For every engine state with the gear ratio set, a
nonnegative increase rate (as produced by pushing a nonnegative gear ratio)
and `current_rpm` in `[700, max_rpm]`, every `update_rpm` call keeps
`current_rpm` in the closed interval `[700, max_rpm]` — decay is clamped at
the idle floor 700 and the value is clamped at `max_rpm` as a final bound —
but `current_rpm` is a rational (Python float), not necessarily an integer. -/
theorem claim_C2 (now : ℚ) (e e' : Engine) (gr : ℚ)
    (hratio : e.current_gear_ratio = some gr) (hir : 0 ≤ e.increase_rate)
    (h7 : 700 ≤ e.current_rpm) (hM : e.current_rpm ≤ e.max_rpm)
    (hupd : Engine.update_rpm now e = some e') :
    700 ≤ e'.current_rpm ∧ e'.current_rpm ≤ e'.max_rpm ∧ e'.max_rpm = e.max_rpm := by
  obtain ⟨a, b, c⟩ := Engine.step_interval now e e' gr hratio hir h7 hM hupd
  exact ⟨a, by rw [c]; exact b, c⟩

/-- C2, witness: the interval invariant instantiated at `engineA` and its
concrete successor state `engineA1`. -/
theorem claim_C2_witness :
    700 ≤ engineA1.current_rpm ∧ engineA1.current_rpm ≤ engineA1.max_rpm
      ∧ engineA1.max_rpm = engineA.max_rpm :=
  claim_C2 0 engineA engineA1 1 rfl
    (by norm_num [engineA, Engine.init, Engine.calculate_increase_rate])
    (by norm_num [engineA, Engine.init, Engine.calculate_increase_rate])
    (by norm_num [engineA, Engine.init, Engine.calculate_increase_rate])
    (by rw [Engine.update_rpm_eq 0 engineA 1 rfl]; rfl)

/-- C3 (confirmed).  For `current_rpm` in `(0, max_rpm]` with
`0 < peak_torque_rpm < max_rpm`, `calculate_current_torque` returns
`max_torque × (rpm / peak_torque_rpm)` when `rpm ≤ peak_torque_rpm` and
`max_torque × (1 − ((rpm − peak)/(max_rpm − peak))²)` when `rpm > peak`, in
both cases floored at `0.3 × max_torque` (so the result never falls below 30%
of `max_torque`), storing the result in `current_torque_nm`; when
`current_rpm = 0` it returns `0` and leaves the state unchanged. -/
theorem claim_C3 (e : Engine) :
    (0 < e.current_rpm → 0 < e.peak_torque_rpm → e.peak_torque_rpm < e.max_rpm →
      e.current_rpm ≤ e.max_rpm →
      (Engine.calculate_current_torque e).1 =
          max (if e.current_rpm ≤ e.peak_torque_rpm then
                e.max_torque_nm * (e.current_rpm / e.peak_torque_rpm)
              else
                e.max_torque_nm * (1 - ((e.current_rpm - e.peak_torque_rpm)
                  / (e.max_rpm - e.peak_torque_rpm)) ^ 2))
            (e.max_torque_nm * 0.3)
        ∧ e.max_torque_nm * 0.3 ≤ (Engine.calculate_current_torque e).1
        ∧ (Engine.calculate_current_torque e).2 =
            { e with current_torque_nm := (Engine.calculate_current_torque e).1 })
    ∧ (e.current_rpm = 0 → Engine.calculate_current_torque e = (0, e)) := by
  constructor
  · intro h0 hpk hpkM hrm
    have hne : e.current_rpm ≠ 0 := ne_of_gt h0
    unfold Engine.calculate_current_torque
    rw [if_neg hne]
    exact ⟨rfl, le_max_right _ _, rfl⟩
  · intro h0
    unfold Engine.calculate_current_torque
    rw [if_pos h0]

/-- C3, witness: the torque formula instantiated at `engineA`
(rpm 700, peak 800, max_rpm 1000, max torque 200). -/
theorem claim_C3_witness :
    (Engine.calculate_current_torque engineA).1 =
        max (if engineA.current_rpm ≤ engineA.peak_torque_rpm then
              engineA.max_torque_nm * (engineA.current_rpm / engineA.peak_torque_rpm)
            else
              engineA.max_torque_nm * (1 - ((engineA.current_rpm - engineA.peak_torque_rpm)
                / (engineA.max_rpm - engineA.peak_torque_rpm)) ^ 2))
          (engineA.max_torque_nm * 0.3)
      ∧ engineA.max_torque_nm * 0.3 ≤ (Engine.calculate_current_torque engineA).1
      ∧ (Engine.calculate_current_torque engineA).2 =
          { engineA with current_torque_nm := (Engine.calculate_current_torque engineA).1 } :=
  (claim_C3 engineA).1
    (by norm_num [engineA, Engine.init, Engine.calculate_increase_rate])
    (by norm_num [engineA, Engine.init, Engine.calculate_increase_rate])
    (by norm_num [engineA, Engine.init, Engine.calculate_increase_rate])
    (by norm_num [engineA, Engine.init, Engine.calculate_increase_rate])

/-- C4 (confirmed).  For every engine state with `current_rpm > 0`,
`calculate_current_hp` sets and returns
`min((current_torque_nm × 0.737562) × current_rpm / 5252, max_horsepower)`,
so the computed horsepower never exceeds `max_horsepower`; when
`current_rpm = 0` it returns `0` and leaves the state unchanged. -/
theorem claim_C4 (e : Engine) :
    (0 < e.current_rpm →
      (Engine.calculate_current_hp e).1 =
          min (e.current_torque_nm * 0.737562 * e.current_rpm / 5252) e.max_horsepower
        ∧ (Engine.calculate_current_hp e).1 ≤ e.max_horsepower
        ∧ (Engine.calculate_current_hp e).2 =
            { e with current_hp := (Engine.calculate_current_hp e).1 })
    ∧ (e.current_rpm = 0 → Engine.calculate_current_hp e = (0, e)) := by
  constructor
  · intro h0
    have hne : e.current_rpm ≠ 0 := ne_of_gt h0
    unfold Engine.calculate_current_hp
    rw [if_neg hne]
    refine ⟨?_, ?_, rfl⟩
    · exact Engine.ite_gt_eq_min _ _
    · dsimp only
      rw [Engine.ite_gt_eq_min]
      exact min_le_right _ _
  · intro h0
    unfold Engine.calculate_current_hp
    rw [if_pos h0]

/-- C4, witness: the horsepower formula instantiated at `engineA`. -/
theorem claim_C4_witness :
    (Engine.calculate_current_hp engineA).1 =
        min (engineA.current_torque_nm * 0.737562 * engineA.current_rpm / 5252)
          engineA.max_horsepower
      ∧ (Engine.calculate_current_hp engineA).1 ≤ engineA.max_horsepower
      ∧ (Engine.calculate_current_hp engineA).2 =
          { engineA with current_hp := (Engine.calculate_current_hp engineA).1 } :=
  (claim_C4 engineA).1
    (by norm_num [engineA, Engine.init, Engine.calculate_increase_rate])

/-- C5 (confirmed).  When the clutch flag is true, the call to `update_rpm`
forces the throttle to 0; on the first engaged tick (null timestamp) it
records the timestamp and stays engaged; once `now − timestamp` exceeds
`clutch_response_time` the flag auto-clears and the timestamp resets.  While
the flag remains engaged through the dwell check, the RPM decay uses
coefficient k = 1: `current_rpm` becomes
`max(700, rpm − (rpm − target) × increase_rate × 1)` (the forced throttle
makes the target 0); with the clutch disengaged the decay uses k = 1/10:
`current_rpm` becomes
`max(700, rpm − (rpm − target) × increase_rate × (1/10))` — exactly ten
times slower. -/
theorem claim_C5 (now : ℚ) (e e' : Engine) (gr : ℚ)
    (hr : e.current_gear_ratio = some gr)
    (hupd : Engine.update_rpm now e = some e')
    (hcl : e.clutched = true) :
    e'.throttle = 0
    ∧ (∀ ts : ℚ, e.clutched_timestamp = some ts → now - ts > e.clutch_response_time →
        e'.clutched = false ∧ e'.clutched_timestamp = none)
    ∧ (e.clutched_timestamp = none → e'.clutched = true ∧ e'.clutched_timestamp = some now)
    ∧ (700 < e.current_rpm → e.current_rpm ≤ e.max_rpm → 0 ≤ e.increase_rate →
        (e.clutched_timestamp = none ∨
          (∃ ts, e.clutched_timestamp = some ts ∧ ¬ now - ts > e.clutch_response_time)) →
        e'.current_rpm =
          max (e.current_rpm - (e.current_rpm - 0) * e.increase_rate * 1) 700)
    ∧ (∀ d d' : Engine, d.clutched = false → d.current_gear_ratio = some gr →
        Engine.update_rpm now d = some d' →
        ((pyInt (d.max_rpm * d.throttle * gr) : ℤ) : ℚ) ≤ d.current_rpm →
        700 < d.current_rpm → d.current_rpm ≤ d.max_rpm → 0 ≤ d.increase_rate →
        d'.current_rpm =
          max (d.current_rpm
            - (d.current_rpm - ((pyInt (d.max_rpm * d.throttle * gr) : ℤ) : ℚ))
              * d.increase_rate * (1 / 10)) 700) := by
  rw [Engine.update_rpm_eq now e gr hr] at hupd
  have he' := (Option.some.inj hupd).symm
  refine ⟨?_, ?_, ?_, ?_, ?_⟩
  · rw [he']
    simp only [Engine.hp2_throttle, Engine.torque2_throttle, Engine.clampMax_throttle,
      Engine.rpmPhase_throttle]
    rcases hts : e.clutched_timestamp with _ | ts
    · rw [Engine.clutchStep_of_ts_none now e hcl hts]
    · by_cases hexp : now - ts > e.clutch_response_time
      · rw [Engine.clutchStep_of_expired now ts e hcl hts hexp]
      · rw [Engine.clutchStep_of_dwell now ts e hcl hts hexp]
  · intro ts hts hgt
    rw [he']
    constructor
    · simp only [Engine.hp2_clutched, Engine.torque2_clutched, Engine.clampMax_clutched,
        Engine.rpmPhase_clutched]
      rw [Engine.clutchStep_of_expired now ts e hcl hts hgt]
    · simp only [Engine.hp2_timestamp, Engine.torque2_timestamp, Engine.clampMax_timestamp,
        Engine.rpmPhase_timestamp]
      rw [Engine.clutchStep_of_expired now ts e hcl hts hgt]
  · intro hts
    rw [he']
    constructor
    · simp only [Engine.hp2_clutched, Engine.torque2_clutched, Engine.clampMax_clutched,
        Engine.rpmPhase_clutched]
      rw [Engine.clutchStep_of_ts_none now e hcl hts]
      exact hcl
    · simp only [Engine.hp2_timestamp, Engine.torque2_timestamp, Engine.clampMax_timestamp,
        Engine.rpmPhase_timestamp]
      rw [Engine.clutchStep_of_ts_none now e hcl hts]
  · intro h7' hMr hir hcase
    rw [he', Engine.post_rpm_formula]
    rcases hcase with hts | ⟨ts, hts, hnexp⟩
    · rw [Engine.clutchStep_of_ts_none now e hcl hts]
      dsimp only
      rw [show e.max_rpm * 0 * gr = 0 by ring, pyInt_zero]
      rw [Engine.rpmPhase_rpm_decay 0 _ (by dsimp only; push_cast; linarith)
        (by dsimp only; exact h7')]
      dsimp only
      rw [if_neg (by simp [hcl])]
      push_cast
      have hd : 0 ≤ (e.current_rpm - 0) * e.increase_rate :=
        mul_nonneg (by linarith) hir
      rw [min_eq_left (max_le (by linarith) (by linarith))]
      rw [mul_one]
    · rw [Engine.clutchStep_of_dwell now ts e hcl hts hnexp]
      dsimp only
      rw [show e.max_rpm * 0 * gr = 0 by ring, pyInt_zero]
      rw [Engine.rpmPhase_rpm_decay 0 _ (by dsimp only; push_cast; linarith)
        (by dsimp only; exact h7')]
      dsimp only
      rw [if_neg (by simp [hcl])]
      push_cast
      have hd : 0 ≤ (e.current_rpm - 0) * e.increase_rate :=
        mul_nonneg (by linarith) hir
      rw [min_eq_left (max_le (by linarith) (by linarith))]
      rw [mul_one]
  · intro d d' hdcl hdr hdupd hdT h7d hMd hird
    rw [Engine.update_rpm_eq now d gr hdr] at hdupd
    have hd' := (Option.some.inj hdupd).symm
    rw [hd', Engine.post_rpm_formula, Engine.clutchStep_of_not_clutched now d hdcl]
    rw [Engine.rpmPhase_rpm_decay _ _ (not_lt.mpr hdT) h7d]
    rw [if_pos hdcl]
    have hd0 : 0 ≤ (d.current_rpm - ((pyInt (d.max_rpm * d.throttle * gr) : ℤ) : ℚ))
        * d.increase_rate := mul_nonneg (by linarith) hird
    rw [min_eq_left (max_le (by linarith) (by linarith))]
    have hq : (d.current_rpm - ((pyInt (d.max_rpm * d.throttle * gr) : ℤ) : ℚ))
        * d.increase_rate / 10
        = (d.current_rpm - ((pyInt (d.max_rpm * d.throttle * gr) : ℤ) : ℚ))
          * d.increase_rate * (1 / 10) := by ring
    rw [hq]

/-- C5, witness: a clutched engine on its first engaged tick at
`current_rpm = 702.295` (the state `engineA1` with the clutch flag raised):
the update forces throttle 0, keeps the clutch engaged, records the
timestamp, and decays with k = 1. -/
theorem claim_C5_witness :
    Engine.update_rpm 5 engineA1c = some engineA1cNext
    ∧ engineA1cNext.throttle = 0
    ∧ engineA1cNext.clutched = true ∧ engineA1cNext.clutched_timestamp = some 5
    ∧ engineA1cNext.current_rpm =
        max (engineA1c.current_rpm
          - (engineA1c.current_rpm - 0) * engineA1c.increase_rate * 1) 700 := by
  have hunfold : engineA1 =
      (Engine.calculate_current_hp ((Engine.calculate_current_torque
        (Engine.clampMax (Engine.rpmPhase
          (pyInt ((Engine.clutchStep 0 engineA).max_rpm
            * (Engine.clutchStep 0 engineA).throttle * 1))
          (Engine.clutchStep 0 engineA)))).2)).2 := by
    rw [engineA1, Engine.tick, Engine.update_rpm_eq 0 engineA 1 rfl, Option.getD_some]
  have hgrA : engineA1.current_gear_ratio = some 1 := by
    rw [hunfold]
    simp [engineA, Engine.init, Engine.calculate_increase_rate]
  have htsA : engineA1.clutched_timestamp = none := by
    rw [hunfold]
    simp [engineA, Engine.init, Engine.calculate_increase_rate, Engine.clutchStep]
  have hrpmA : engineA1.current_rpm = 140459 / 200 := by
    rw [hunfold]
    norm_num [engineA, Engine.init, Engine.calculate_increase_rate, Engine.update_rpm,
      Engine.clutchStep, Engine.rpmPhase, Engine.clampMax, Engine.calculate_current_torque,
      Engine.calculate_current_hp, pyInt, max_def, min_def, Int.floor_eq_iff]
  have hmaxA : engineA1.max_rpm = 1000 := by
    rw [hunfold]
    simp [engineA, Engine.init, Engine.calculate_increase_rate, Engine.clutchStep]
  have hirA : engineA1.increase_rate = 3 / 200 := by
    rw [hunfold]
    norm_num [engineA, Engine.init, Engine.calculate_increase_rate, Engine.clutchStep]
  have hupd : Engine.update_rpm 5 engineA1c = some engineA1cNext := by
    rw [engineA1cNext, Engine.tick,
      Engine.update_rpm_eq 5 engineA1c 1 (show engineA1.current_gear_ratio = some 1 from hgrA),
      Option.getD_some]
  obtain ⟨p1, p2, p3, p4, p5⟩ := claim_C5 5 engineA1c engineA1cNext 1
    (show engineA1.current_gear_ratio = some 1 from hgrA) hupd rfl
  obtain ⟨q1, q2⟩ := p3 (show engineA1.clutched_timestamp = none from htsA)
  refine ⟨hupd, p1, q1, q2,
    p4 ?_ ?_ ?_ (Or.inl (show engineA1.clutched_timestamp = none from htsA))⟩
  · show (700 : ℚ) < engineA1.current_rpm
    rw [hrpmA]; norm_num
  · show engineA1.current_rpm ≤ engineA1.max_rpm
    rw [hrpmA, hmaxA]; norm_num
  · show (0 : ℚ) ≤ engineA1.increase_rate
    rw [hirA]; norm_num

/-- C10 (confirmed).  When the clutch flag becomes true with a null
engagement timestamp, the first subsequent `update_rpm` call only records the
timestamp and never clears the flag in that same call (for every
`clutch_response_time`, including 0), so the clutch remains engaged for at
least two consecutive calls before it can auto-clear. -/
theorem claim_C10 (now : ℚ) (e e' : Engine) (gr : ℚ)
    (hr : e.current_gear_ratio = some gr) (hcl : e.clutched = true)
    (hts : e.clutched_timestamp = none)
    (hupd : Engine.update_rpm now e = some e') :
    e'.clutched = true ∧ e'.clutched_timestamp = some now := by
  rw [Engine.update_rpm_eq now e gr hr] at hupd
  have he' := (Option.some.inj hupd).symm
  rw [he']
  constructor
  · simp only [Engine.hp2_clutched, Engine.torque2_clutched, Engine.clampMax_clutched,
      Engine.rpmPhase_clutched]
    rw [Engine.clutchStep_of_ts_none now e hcl hts]
    exact hcl
  · simp only [Engine.hp2_timestamp, Engine.torque2_timestamp, Engine.clampMax_timestamp,
      Engine.rpmPhase_timestamp]
    rw [Engine.clutchStep_of_ts_none now e hcl hts]

/-- C10, witness: the first engaged tick on a freshly clutched `engineA`
(response time 1000 ms) records the timestamp and stays engaged, even at
`now = 0`. -/
theorem claim_C10_witness :
    Engine.update_rpm 0 engineAc = some engineAcNext
    ∧ engineAcNext.clutched = true ∧ engineAcNext.clutched_timestamp = some 0 := by
  have hupd : Engine.update_rpm 0 engineAc = some engineAcNext := by
    rw [engineAcNext, Engine.tick, Engine.update_rpm_eq 0 engineAc 1 rfl, Option.getD_some]
  obtain ⟨a, b⟩ := claim_C10 0 engineAc engineAcNext 1 rfl rfl rfl hupd
  exact ⟨hupd, a, b⟩

/-- `get_wheel_radius` characterised by the spec's decomposition into three
integer-bearing segments: it succeeds (with a radius computed purely from the
rim diameter) exactly when `tireSegments` succeeds, and raises the format
error otherwise. -/
lemma get_wheel_radius_eq_segments (s : String) :
    Gearbox.get_wheel_radius s =
      (match tireSegments s with
       | some (_, _, d) => Except.ok ((d : ℚ) * 25.4 / 2 / 1000)
       | none => Except.error invalidTireMsg) := by
  rcases h1 : pySplit '/' s.data with _ | ⟨w, _ | ⟨rest, _ | ⟨x, xs⟩⟩⟩ <;>
    simp only [Gearbox.get_wheel_radius, tireSegments, h1]
  rcases h2 : pySplit 'R' rest with _ | ⟨a, _ | ⟨d, _ | ⟨y, ys⟩⟩⟩ <;> simp only [h2]
  rcases h3 : pyIntStr w with _ | wi <;> try simp only [h3]
  all_goals try (rcases h4 : pyIntStr a with _ | ai <;> try simp only [h4])
  all_goals try (rcases h5 : pyIntStr d with _ | di <;> try simp only [h5])

/-- C6 (confirmed).  Tire-descriptor parsing returns a radius computed purely
from the rim diameter term, `radius = diameter × 25.4 / 2 / 1000` (the
sidewall-height intermediate is unused), succeeding exactly when the string
splits into three integer-bearing segments around `/` and `R`
(`tireSegments`); `"195/55R16"` yields 0.2032 m and `"not-a-size"` raises the
format error. -/
theorem claim_C6 :
    (∀ (s : String) (w a d : ℤ), tireSegments s = some (w, a, d) →
        Gearbox.get_wheel_radius s = Except.ok ((d : ℚ) * 25.4 / 2 / 1000))
    ∧ (∀ s : String, tireSegments s = none →
        Gearbox.get_wheel_radius s = Except.error invalidTireMsg)
    ∧ Gearbox.get_wheel_radius "195/55R16" = Except.ok 0.2032
    ∧ tireSegments "195/55R16" = some (195, 55, 16)
    ∧ Gearbox.get_wheel_radius "not-a-size" = Except.error invalidTireMsg
    ∧ (0.2032 : ℚ) = 16 * 25.4 / 2 / 1000 := by
  refine ⟨?_, ?_, ?_, rfl, rfl, by norm_num⟩
  · intro s w a d h
    rw [get_wheel_radius_eq_segments s, h]
  · intro s h
    rw [get_wheel_radius_eq_segments s, h]
  · rw [show Gearbox.get_wheel_radius "195/55R16"
        = Except.ok (((16 : ℤ) : ℚ) * 25.4 / 2 / 1000) from rfl]
    congr 1
    push_cast
    norm_num

/-- C6, witness: the diameter-only radius formula applied to `"195/55R16"`
through the general characterisation. -/
theorem claim_C6_witness :
    Gearbox.get_wheel_radius "195/55R16" = Except.ok (((16 : ℤ) : ℚ) * 25.4 / 2 / 1000) :=
  claim_C6.1 "195/55R16" 195 55 16 rfl

/-- Any sequence of shift commands keeps the 1-based gear index within
`[1, len(gear_ratios)]` and never touches the ratio list. -/
lemma applyShifts_invariant (ops : List ShiftOp) (g : Gearbox)
    (h1 : 1 ≤ g.current_gear) (h2 : g.current_gear ≤ (g.gear_ratios.length : ℤ)) :
    1 ≤ (applyShifts ops g).current_gear
    ∧ (applyShifts ops g).current_gear ≤ (g.gear_ratios.length : ℤ)
    ∧ (applyShifts ops g).gear_ratios = g.gear_ratios := by
  induction ops generalizing g with
  | nil => exact ⟨h1, h2, rfl⟩
  | cons op rest ih =>
      cases op with
      | up =>
          have hred : applyShifts (ShiftOp.up :: rest) g
              = applyShifts rest (Gearbox.shift_up g) := rfl
          rw [hred]
          have hg1 : 1 ≤ (Gearbox.shift_up g).current_gear := by
            unfold Gearbox.shift_up; split <;> (first | omega | (dsimp only; omega))
          have hg2 : (Gearbox.shift_up g).current_gear
              ≤ ((Gearbox.shift_up g).gear_ratios.length : ℤ) := by
            unfold Gearbox.shift_up; split <;> (first | omega | (dsimp only; omega))
          have hg3 : (Gearbox.shift_up g).gear_ratios = g.gear_ratios := by
            unfold Gearbox.shift_up; split <;> rfl
          obtain ⟨a, b, c⟩ := ih (Gearbox.shift_up g) hg1 hg2
          rw [hg3] at b
          exact ⟨a, b, by rw [c, hg3]⟩
      | down =>
          have hred : applyShifts (ShiftOp.down :: rest) g
              = applyShifts rest (Gearbox.shift_down g) := rfl
          rw [hred]
          have hg1 : 1 ≤ (Gearbox.shift_down g).current_gear := by
            unfold Gearbox.shift_down; split <;> (first | omega | (dsimp only; omega))
          have hg2 : (Gearbox.shift_down g).current_gear
              ≤ ((Gearbox.shift_down g).gear_ratios.length : ℤ) := by
            unfold Gearbox.shift_down; split <;> (first | omega | (dsimp only; omega))
          have hg3 : (Gearbox.shift_down g).gear_ratios = g.gear_ratios := by
            unfold Gearbox.shift_down; split <;> rfl
          obtain ⟨a, b, c⟩ := ih (Gearbox.shift_down g) hg1 hg2
          rw [hg3] at b
          exact ⟨a, b, by rw [c, hg3]⟩

/-- C7 (confirmed).  With a non-empty ratio list, `shift_down` is a no-op at
gear 1 and `shift_up` is a no-op at gear `len(gear_ratios)`; otherwise they
move the gear by exactly 1; and from `current_gear = 1` every sequence of
shift operations keeps `current_gear ∈ [1, len(gear_ratios)]`. -/
theorem claim_C7 (g : Gearbox) (hne : g.gear_ratios ≠ []) :
    (g.current_gear = 1 → Gearbox.shift_down g = g)
    ∧ (g.current_gear = (g.gear_ratios.length : ℤ) → Gearbox.shift_up g = g)
    ∧ (g.current_gear < (g.gear_ratios.length : ℤ) →
        Gearbox.shift_up g = { g with current_gear := g.current_gear + 1 })
    ∧ (1 < g.current_gear →
        Gearbox.shift_down g = { g with current_gear := g.current_gear - 1 })
    ∧ (g.current_gear = 1 → ∀ ops : List ShiftOp,
        1 ≤ (applyShifts ops g).current_gear
          ∧ (applyShifts ops g).current_gear ≤ (g.gear_ratios.length : ℤ)) := by
  have hlen : 0 < g.gear_ratios.length := List.length_pos.mpr hne
  refine ⟨?_, ?_, ?_, ?_, ?_⟩
  · intro h
    unfold Gearbox.shift_down
    rw [if_neg (by omega)]
  · intro h
    unfold Gearbox.shift_up
    rw [if_neg (by omega)]
  · intro h
    unfold Gearbox.shift_up
    rw [if_pos h]
  · intro h
    unfold Gearbox.shift_down
    rw [if_pos h]
  · intro h ops
    obtain ⟨a, b, _⟩ := applyShifts_invariant ops g (by omega) (by omega)
    exact ⟨a, b⟩

/-- C7, witness: the gear-bound invariant instantiated at the 5-speed
`gearboxMain`. -/
theorem claim_C7_witness :
    (gearboxMain.current_gear = 1 → Gearbox.shift_down gearboxMain = gearboxMain)
    ∧ (gearboxMain.current_gear = (gearboxMain.gear_ratios.length : ℤ) →
        Gearbox.shift_up gearboxMain = gearboxMain)
    ∧ (gearboxMain.current_gear < (gearboxMain.gear_ratios.length : ℤ) →
        Gearbox.shift_up gearboxMain
          = { gearboxMain with current_gear := gearboxMain.current_gear + 1 })
    ∧ (1 < gearboxMain.current_gear →
        Gearbox.shift_down gearboxMain
          = { gearboxMain with current_gear := gearboxMain.current_gear - 1 })
    ∧ (gearboxMain.current_gear = 1 → ∀ ops : List ShiftOp,
        1 ≤ (applyShifts ops gearboxMain).current_gear
          ∧ (applyShifts ops gearboxMain).current_gear
            ≤ (gearboxMain.gear_ratios.length : ℤ)) :=
  claim_C7 gearboxMain (by simp [gearboxMain])

/-- C8, counterexample.  The claim states the speed formula with the exact
circle constant 2π and gives the example value ≈ 15.85 km/h for
engine_rpm 3000, gear ratio 3.545, final drive 4.294, tire radius 0.2032 m.
The code uses the literal `3.14159` (not π), and the example value is wrong:
the code computes ≈ 15.097 km/h, more than 0.7 km/h away from 15.85; and the
computed value differs from the claimed 2π-formula value (which would require
`3.14159 = π`). -/
theorem claim_C8_counterexample :
    Gearbox.init [3.545, 1.913, 1.310, 1.027, 0.850] "195/55R16" 4.294
        = Except.ok gearboxMain
    ∧ Gearbox.get_speed gearboxMain 3000 = some speedScenario
    ∧ |speedScenario - 15.85| > 7 / 10
    ∧ ((speedScenario : ℚ) : ℝ)
        ≠ 3000 * 0.2032 * 2 * Real.pi * 60 / (4.294 * 3.545 * 1000) := by
  refine ⟨?_, rfl, ?_, ?_⟩
  · have hr16 : ((16 : ℤ) : ℚ) * 25.4 / 2 / 1000 = 0.2032 := by push_cast; norm_num
    rw [show Gearbox.init [3.545, 1.913, 1.310, 1.027, 0.850] "195/55R16" 4.294
        = Except.ok { gear_ratios := [3.545, 1.913, 1.310, 1.027, 0.850], current_gear := 1,
                      tire_radius_meters := ((16 : ℤ) : ℚ) * 25.4 / 2 / 1000,
                      final_drive_ratio := 4.294 } from rfl, hr16]
    rfl
  · have h1 : speedScenario - 15.85 < 0 := by norm_num [speedScenario]
    rw [abs_of_neg h1]
    norm_num [speedScenario]
  · have hq : ((speedScenario : ℚ) : ℝ)
        = 3000 * 0.2032 * 2 * 3.14159 * 60 / (4.294 * 3.545 * 1000) := by
      rw [speedScenario]
      push_cast
      norm_num
    rw [hq]
    apply ne_of_lt
    have hπ : (3.14159 : ℝ) < Real.pi := by
      have := Real.pi_gt_d6
      linarith
    gcongr

/-- C8 (amended).  For every gearbox state whose current gear indexes into
the ratio list, `get_speed` returns
`engine_rpm × tire_radius × 2 × 3.14159 × 60 / (final_drive × ratio × 1000)`
km/h — the source's circle constant is the literal 3.14159, not 2π — and
mutates no state (it is a pure function in this embedding); at
engine_rpm 3000, ratio 3.545, final drive 4.294, radius 0.2032 m it returns
≈ 15.097 km/h (not ≈ 15.85 as the spec's example says). -/
theorem claim_C8 (g : Gearbox) (engine_rpm gr : ℚ)
    (hidx : pyIndex g.gear_ratios (g.current_gear - 1) = some gr) :
    Gearbox.get_speed g engine_rpm =
      some (engine_rpm * g.tire_radius_meters * 2 * 3.14159 * 60
        / (g.final_drive_ratio * gr * 1000))
    ∧ Gearbox.get_speed gearboxMain 3000 = some speedScenario
    ∧ 15.09 < speedScenario ∧ speedScenario < 15.10 := by
  refine ⟨?_, rfl, by norm_num [speedScenario], by norm_num [speedScenario]⟩
  unfold Gearbox.get_speed
  rw [hidx]
  rfl

/-- C8, witness: the speed formula instantiated at `gearboxMain` in first
gear at 3000 RPM. -/
theorem claim_C8_witness :
    Gearbox.get_speed gearboxMain 3000 =
      some (3000 * gearboxMain.tire_radius_meters * 2 * 3.14159 * 60
        / (gearboxMain.final_drive_ratio * 3.545 * 1000))
    ∧ Gearbox.get_speed gearboxMain 3000 = some speedScenario
    ∧ 15.09 < speedScenario ∧ speedScenario < 15.10 :=
  claim_C8 gearboxMain 3000 3.545 rfl

/-- C9, counterexample.  The claim says construction validates
`max_rpm > 0`, `peak_torque_rpm > 0` and non-emptiness of the gear-ratio
list and fails fast.  In the code neither constructor validates anything:
`Engine.__init__` accepts and stores `max_rpm = 0` and
`peak_torque_rpm = 0` verbatim, and `Gearbox.__init__` succeeds on an empty
gear-ratio list (its only failure mode is the tire-descriptor parse). -/
theorem claim_C9_counterexample :
    (Engine.init "X" "X" "X" 0 0 0 0 0 0 0 0 0 0 "X" 0 0 0).max_rpm = 0
    ∧ (Engine.init "X" "X" "X" 0 0 0 0 0 0 0 0 0 0 "X" 0 0 0).peak_torque_rpm = 0
    ∧ Gearbox.init [] "195/55R16" 1 =
        Except.ok { gear_ratios := [], current_gear := 1,
                    tire_radius_meters := ((16 : ℤ) : ℚ) * 25.4 / 2 / 1000,
                    final_drive_ratio := 1 } :=
  ⟨rfl, rfl, rfl⟩

/-- C9 (amended).  Construction performs no validation of the structural
invariants: `Engine.__init__` always succeeds and stores `max_rpm`,
`peak_torque_rpm` and `max_torque_nm` verbatim — including invariant-violating
values such as 0 — and `Gearbox.__init__` succeeds for every ratio list
(including the empty one), its only failure mode being a malformed
tire-size descriptor; invariant violations are deferred to the later
operations that use the values. -/
theorem claim_C9 (name manufacturer description : String)
    (cylinders displacement : ℤ) (bore stroke compression : ℚ)
    (max_rpm max_hp max_kw max_torque : ℚ) (ron : ℤ) (ecs : String)
    (peak_torque peak_hp crt : ℚ)
    (ratios : List ℚ) (ts : String) (fd r : ℚ)
    (hparse : Gearbox.get_wheel_radius ts = Except.ok r) :
    (Engine.init name manufacturer description cylinders displacement bore stroke compression
        max_rpm max_hp max_kw max_torque ron ecs peak_torque peak_hp crt).max_rpm = max_rpm
    ∧ (Engine.init name manufacturer description cylinders displacement bore stroke compression
        max_rpm max_hp max_kw max_torque ron ecs peak_torque peak_hp crt).peak_torque_rpm
          = peak_torque
    ∧ (Engine.init name manufacturer description cylinders displacement bore stroke compression
        max_rpm max_hp max_kw max_torque ron ecs peak_torque peak_hp crt).max_torque_nm
          = max_torque
    ∧ Gearbox.init ratios ts fd =
        Except.ok { gear_ratios := ratios, current_gear := 1,
                    tire_radius_meters := r, final_drive_ratio := fd } := by
  refine ⟨rfl, rfl, rfl, ?_⟩
  unfold Gearbox.init
  rw [hparse]
  rfl

/-- C9, witness: the no-validation behaviour at the degenerate spec
(`max_rpm = 0`, `peak_torque_rpm = 0`, empty ratio list). -/
theorem claim_C9_witness :
    (Engine.init "X" "X" "X" 0 0 0 0 0 0 0 0 0 0 "X" 0 0 0).max_rpm = 0
    ∧ (Engine.init "X" "X" "X" 0 0 0 0 0 0 0 0 0 0 "X" 0 0 0).peak_torque_rpm = 0
    ∧ (Engine.init "X" "X" "X" 0 0 0 0 0 0 0 0 0 0 "X" 0 0 0).max_torque_nm = 0
    ∧ Gearbox.init [] "195/55R16" 1 =
        Except.ok { gear_ratios := [], current_gear := 1,
                    tire_radius_meters := ((16 : ℤ) : ℚ) * 25.4 / 2 / 1000,
                    final_drive_ratio := 1 } :=
  claim_C9 "X" "X" "X" 0 0 0 0 0 0 0 0 0 0 "X" 0 0 0 [] "195/55R16" 1
    (((16 : ℤ) : ℚ) * 25.4 / 2 / 1000) rfl

end CarEngineSim

